import Mathlib

/-!
Verification of the midikit core against its natural-language specification.

The definitions below are a shallow embedding of the C sources:
  * `src/midi/…` (message_format.c) — the MIDI message format registry:
    detectors, sizers, setters, encoders and decoders;
  * `src/driver/applemidi/applemidi.c` — the AppleMIDI session engine:
    datagram routing, command send, clock synchronization and responding.

Machine integers are modelled as `Nat` with explicit masking where the C code
masks; byte buffers are `List Nat`; fallible functions return `Option` or a
result record carrying the C return value.  Pointers that can be `NULL` are
modelled as `Option`.  Uninitialized stack memory is modelled by passing the
residual contents as an explicit parameter.
-/

namespace Midikit

/-! ### MIDI status constants

Modelled from the spec: the header `midi.h` that defines the `MIDI_STATUS_*`
enumeration is not part of the provided sources; the values follow the
detector table in spec §4.1 (channel-voice statuses are high nibbles 0x8..0xE,
system statuses are full bytes 0xF0..0xFF, real-time spans 0xF8..0xFF with
0xF9 and 0xFD undefined). -/

def MIDI_STATUS_NOTE_OFF : Nat := 0x8
def MIDI_STATUS_NOTE_ON : Nat := 0x9
def MIDI_STATUS_POLYPHONIC_KEY_PRESSURE : Nat := 0xa
def MIDI_STATUS_CONTROL_CHANGE : Nat := 0xb
def MIDI_STATUS_PROGRAM_CHANGE : Nat := 0xc
def MIDI_STATUS_CHANNEL_PRESSURE : Nat := 0xd
def MIDI_STATUS_PITCH_WHEEL_CHANGE : Nat := 0xe
def MIDI_STATUS_SYSTEM_EXCLUSIVE : Nat := 0xf0
def MIDI_STATUS_TIME_CODE_QUARTER_FRAME : Nat := 0xf1
def MIDI_STATUS_SONG_POSITION_POINTER : Nat := 0xf2
def MIDI_STATUS_SONG_SELECT : Nat := 0xf3
def MIDI_STATUS_TUNE_REQUEST : Nat := 0xf6
def MIDI_STATUS_TIMING_CLOCK : Nat := 0xf8
def MIDI_STATUS_UNDEFINED2 : Nat := 0xf9
def MIDI_STATUS_UNDEFINED3 : Nat := 0xfd
def MIDI_STATUS_RESET : Nat := 0xff

/-- The twelve message format descriptors registered in `message_format.c`
(the static `_note_off_on` … `_real_time` tables).  A value of this type
plays the role of a `struct MIDIMessageFormat *`. -/
inductive MIDIVariant where
  | noteOffOn
  | polyphonicKeyPressure
  | controlChange
  | programChange
  | channelPressure
  | pitchWheelChange
  | systemExclusive
  | timeCodeQuarterFrame
  | songPositionPointer
  | songSelect
  | tuneRequest
  | realTime
deriving DecidableEq, Repr

/-! ### Detectors (`_test_*` in message_format.c)

Each detector reads byte 0 of the buffer; the buffer argument is therefore
modelled as that byte. -/

def test_note_off_on (b : Nat) : Bool :=
  (b &&& 0xf0) = (MIDI_STATUS_NOTE_OFF <<< 4) || (b &&& 0xf0) = (MIDI_STATUS_NOTE_ON <<< 4)

def test_polyphonic_key_pressure (b : Nat) : Bool :=
  (b &&& 0xf0) = (MIDI_STATUS_POLYPHONIC_KEY_PRESSURE <<< 4)

def test_control_change (b : Nat) : Bool :=
  (b &&& 0xf0) = (MIDI_STATUS_CONTROL_CHANGE <<< 4)

def test_program_change (b : Nat) : Bool :=
  (b &&& 0xf0) = (MIDI_STATUS_PROGRAM_CHANGE <<< 4)

def test_channel_pressure (b : Nat) : Bool :=
  (b &&& 0xf0) = (MIDI_STATUS_CHANNEL_PRESSURE <<< 4)

def test_pitch_wheel_change (b : Nat) : Bool :=
  (b &&& 0xf0) = (MIDI_STATUS_PITCH_WHEEL_CHANGE <<< 4)

def test_system_exclusive (b : Nat) : Bool :=
  b = MIDI_STATUS_SYSTEM_EXCLUSIVE

def test_time_code_quarter_frame (b : Nat) : Bool :=
  b = MIDI_STATUS_TIME_CODE_QUARTER_FRAME

def test_song_position_pointer (b : Nat) : Bool :=
  b = MIDI_STATUS_SONG_POSITION_POINTER

def test_song_select (b : Nat) : Bool :=
  b = MIDI_STATUS_SONG_SELECT

def test_tune_request (b : Nat) : Bool :=
  b = MIDI_STATUS_TUNE_REQUEST

def test_real_time (b : Nat) : Bool :=
  if MIDI_STATUS_TIMING_CLOCK ≤ b && b ≤ MIDI_STATUS_RESET then
    b ≠ MIDI_STATUS_UNDEFINED2 && b ≠ MIDI_STATUS_UNDEFINED3
  else
    false

/-- The detector attached to each format table entry. -/
def variantTest : MIDIVariant → Nat → Bool
  | .noteOffOn => test_note_off_on
  | .polyphonicKeyPressure => test_polyphonic_key_pressure
  | .controlChange => test_control_change
  | .programChange => test_program_change
  | .channelPressure => test_channel_pressure
  | .pitchWheelChange => test_pitch_wheel_change
  | .systemExclusive => test_system_exclusive
  | .timeCodeQuarterFrame => test_time_code_quarter_frame
  | .songPositionPointer => test_song_position_pointer
  | .songSelect => test_song_select
  | .tuneRequest => test_tune_request
  | .realTime => test_real_time

/-- The fixed registry order of `MIDIMessageFormatDetect`. -/
def formatRegistry : List MIDIVariant :=
  [ .noteOffOn, .polyphonicKeyPressure, .controlChange, .programChange,
    .channelPressure, .pitchWheelChange, .systemExclusive,
    .timeCodeQuarterFrame, .songPositionPointer, .songSelect,
    .tuneRequest, .realTime ]

/-- `MIDIMessageFormatDetect`: try the registered detectors in order and
return the first that matches byte 0 of the buffer. -/
def MIDIMessageFormatDetect (b : Nat) : Option MIDIVariant :=
  formatRegistry.find? (fun v => variantTest v b)

/-- `MIDIMessageFormatForStatus`: statuses at 0x80 and above are taken as
full bytes (assigned to a `uint8_t`, hence reduced mod 256) and must be at
least 0xF0; statuses below 0x80 are shifted into the high nibble (again with
`uint8_t` truncation) and must then have the status bit set. -/
def MIDIMessageFormatForStatus (status : Nat) : Option MIDIVariant :=
  if 0x80 ≤ status then
    let byte := status % 256
    if byte < 0xf0 then none
    else MIDIMessageFormatDetect byte
  else
    let byte := (status <<< 4) % 256
    if byte < 0x80 then none
    else MIDIMessageFormatDetect byte

/-! ### Message data records -/

/-- `struct MIDIMessageData`: a four byte inline header, a payload length and
an optional payload pointer (SysEx only).  `data = none` models a `NULL`
pointer; `some l` models a pointer to the bytes `l`. -/
structure MIDIMessageData where
  bytes0 : Nat
  bytes1 : Nat
  bytes2 : Nat
  bytes3 : Nat
  size : Nat
  data : Option (List Nat)
deriving DecidableEq, Repr

/-- A freshly created message record handed to `decode`.
Modelled from the spec: `message.c` (not among the provided sources) creates
message records zero-initialized with no payload attached. -/
def emptyMessageData : MIDIMessageData :=
  { bytes0 := 0, bytes1 := 0, bytes2 := 0, bytes3 := 0, size := 0, data := none }

/-! ### Sizers (`_size_*`)

The C sizers write through an out-parameter and return 0; `none` models the
failure return 1 (which the C code reaches only on `NULL` arguments, which
have no counterpart in this embedding). -/

def size_one_byte (_ : MIDIMessageData) : Option Nat := some 1

def size_two_bytes (_ : MIDIMessageData) : Option Nat := some 2

def size_three_bytes (_ : MIDIMessageData) : Option Nat := some 3

/-- `_size_system_exclusive`: the first fragment (`bytes[2] == 0`) carries
status and manufacturer id in front of the payload, later fragments carry
pure payload. -/
def size_system_exclusive (d : MIDIMessageData) : Option Nat :=
  if d.bytes2 = 0 then some (d.size + 2) else some d.size

/-- The sizer attached to each format table entry. -/
def MIDIMessageFormatGetSize : MIDIVariant → MIDIMessageData → Option Nat
  | .noteOffOn => size_three_bytes
  | .polyphonicKeyPressure => size_three_bytes
  | .controlChange => size_three_bytes
  | .programChange => size_two_bytes
  | .channelPressure => size_two_bytes
  | .pitchWheelChange => size_three_bytes
  | .systemExclusive => size_system_exclusive
  | .timeCodeQuarterFrame => size_two_bytes
  | .songPositionPointer => size_three_bytes
  | .songSelect => size_two_bytes
  | .tuneRequest => size_one_byte
  | .realTime => size_one_byte

/-! ### Encoders and decoders (`_encode_*` / `_decode_*`)

An encoder receives the writable buffer length and returns the bytes it
writes (`none` models the failure return 1 on a too small buffer).  A decoder
receives the inbound buffer (its length is the `size` argument of the C
function) together with the message record it writes into, and returns the
updated record. -/

def encode_one_byte (d : MIDIMessageData) (size : Nat) : Option (List Nat) :=
  if size < 1 then none else some [d.bytes0]

def decode_one_byte (d : MIDIMessageData) (buffer : List Nat) : Option MIDIMessageData :=
  if buffer.length < 1 then none
  else some { d with bytes0 := buffer.getD 0 0 }

def encode_two_bytes (d : MIDIMessageData) (size : Nat) : Option (List Nat) :=
  if size < 2 then none else some [d.bytes0, d.bytes1]

def decode_two_bytes (d : MIDIMessageData) (buffer : List Nat) : Option MIDIMessageData :=
  if buffer.length < 2 then none
  else some { d with bytes0 := buffer.getD 0 0, bytes1 := buffer.getD 1 0 }

def encode_three_bytes (d : MIDIMessageData) (size : Nat) : Option (List Nat) :=
  if size < 3 then none else some [d.bytes0, d.bytes1, d.bytes2]

def decode_three_bytes (d : MIDIMessageData) (buffer : List Nat) : Option MIDIMessageData :=
  if buffer.length < 3 then none
  else some { d with bytes0 := buffer.getD 0 0, bytes1 := buffer.getD 1 0,
                     bytes2 := buffer.getD 2 0 }

/-- `_encode_system_exclusive`: a first fragment (`bytes[2] == 0`) is written
as status byte, manufacturer id, then the payload; a later fragment is pure
payload.  The `memcpy` of `data->size` bytes is guarded by
`data->size > 0 && data->data != NULL`; when the guard fails only the header
bytes are written (the C leaves the rest of the buffer untouched). -/
def encode_system_exclusive (d : MIDIMessageData) (size : Nat) : Option (List Nat) :=
  if d.bytes2 = 0 then
    if size < d.size + 2 then none
    else some ([d.bytes0, d.bytes1] ++
      (if 0 < d.size ∧ d.data.isSome then (d.data.getD []).take d.size else []))
  else
    if size < d.size then none
    else some (if 0 < d.size ∧ d.data.isSome then (d.data.getD []).take d.size else [])

/-- `_decode_system_exclusive`: unconditionally applies the first-fragment
rule: byte 0 is the status, byte 1 the manufacturer id, the fragment index is
reset to 0, the owning flag is set to 1, and a fresh buffer of `size - 2`
bytes is allocated and filled from offset 2.  The C performs no length check;
an input shorter than 2 bytes would wrap the `size_t` subtraction (undefined
behaviour not exercised here), modelled by truncated `Nat` subtraction. -/
def decode_system_exclusive (d : MIDIMessageData) (buffer : List Nat) : Option MIDIMessageData :=
  some { d with bytes0 := buffer.getD 0 0, bytes1 := buffer.getD 1 0,
                bytes2 := 0, bytes3 := 1,
                data := some (buffer.drop 2), size := buffer.length - 2 }

/-- The encoder attached to each format table entry. -/
def MIDIMessageFormatEncode : MIDIVariant → MIDIMessageData → Nat → Option (List Nat)
  | .noteOffOn => encode_three_bytes
  | .polyphonicKeyPressure => encode_three_bytes
  | .controlChange => encode_three_bytes
  | .programChange => encode_two_bytes
  | .channelPressure => encode_two_bytes
  | .pitchWheelChange => encode_three_bytes
  | .systemExclusive => encode_system_exclusive
  | .timeCodeQuarterFrame => encode_two_bytes
  | .songPositionPointer => encode_three_bytes
  | .songSelect => encode_two_bytes
  | .tuneRequest => encode_one_byte
  | .realTime => encode_one_byte

/-- The decoder attached to each format table entry. -/
def MIDIMessageFormatDecode : MIDIVariant → MIDIMessageData → List Nat → Option MIDIMessageData
  | .noteOffOn => decode_three_bytes
  | .polyphonicKeyPressure => decode_three_bytes
  | .controlChange => decode_three_bytes
  | .programChange => decode_two_bytes
  | .channelPressure => decode_two_bytes
  | .pitchWheelChange => decode_three_bytes
  | .systemExclusive => decode_system_exclusive
  | .timeCodeQuarterFrame => decode_two_bytes
  | .songPositionPointer => decode_three_bytes
  | .songSelect => decode_two_bytes
  | .tuneRequest => decode_one_byte
  | .realTime => decode_one_byte

/-! ### Properties and setters

Modelled from the spec where the missing header `message_format.h` is
concerned: the enumerated property key set is the one listed in spec §4.1,
and the sizes of the C value types checked by `PROPERTY_CASE_BASE`
(`sizeof(type)`) are one byte for the plain MIDI byte types, two bytes for
`MIDILongValue` (a 14-bit packed pair), and eight bytes for `size_t` and
pointer values. -/

inductive MIDIProperty where
  | status
  | channel
  | key
  | velocity
  | pressure
  | control
  | value
  | valueMsb
  | valueLsb
  | program
  | manufacturerId
  | sysexSize
  | sysexFragment
  | sysexData
  | timeCodeType
deriving DecidableEq, Repr

/-- Size of the plain one-byte MIDI value types
(`MIDIStatus`, `MIDIChannel`, `MIDIKey`, `MIDIVelocity`, `MIDIPressure`,
`MIDIControl`, `MIDIValue`, `MIDIProgram`, `MIDIManufacturerId`, `uint8_t`). -/
def sizeofMIDIByte : Nat := 1

/-- Size of `MIDILongValue` (14-bit LSB/MSB pair). -/
def sizeofMIDILongValue : Nat := 2

/-- Size of `size_t`. -/
def sizeofSizeT : Nat := 8

/-- Size of a pointer (`void **`). -/
def sizeofVoidPtr : Nat := 8

/-- The value passed to a setter behind its `void *` argument: either the
pointed-to number or (for `MIDI_SYSEX_DATA`) the pointed-to payload pointer.
A pointer-valued argument for a numeric key has no counterpart in the typed
embedding and is rejected. -/
inductive MIDIValueArg where
  | num (n : Nat)
  | ptr (p : Option (List Nat))
deriving DecidableEq, Repr

/-- Outcome of a setter: the C return value, the (possibly updated) message
record, and whether `free` was called on the previously attached payload
buffer.  The only `free` in the setters is in `_set_system_exclusive`. -/
structure SetResult where
  retval : Nat
  msg : MIDIMessageData
  freedData : Bool
deriving DecidableEq, Repr

/-- Nibble helpers.  Modelled from the spec: the macros `MIDI_HIGH_NIBBLE`,
`MIDI_LOW_NIBBLE` and `MIDI_NIBBLE_VALUE` live in the missing header
`midi.h`; a status nibble is the upper four bits, a channel the lower four. -/
def midiHighNibble (b : Nat) : Nat := (b >>> 4) &&& 0x0f

def midiLowNibble (b : Nat) : Nat := b &&& 0x0f

def midiNibbleValue (h l : Nat) : Nat := ((h &&& 0x0f) <<< 4) ||| (l &&& 0x0f)

/-- Modelled from the spec (§4.1): `MIDI_LSB` extracts the low seven bits of
a long value. -/
def midiLSB (v : Nat) : Nat := v &&& 0x7f

/-- Modelled from the spec (§4.1): `MIDI_MSB` extracts the high seven bits of
a long value. -/
def midiMSB (v : Nat) : Nat := (v >>> 7) &&& 0x7f

/-- The `PROPERTY_CASE_SET` macro body: check the value size, check that the
value survives the mask (0xFF for `MIDI_STATUS`, 0x7F for every other key),
then store it through `write`. -/
def property_case_set (isStatusKey : Bool) (tsz : Nat)
    (write : Nat → MIDIMessageData) (d : MIDIMessageData) (sz n : Nat) : SetResult :=
  if sz ≠ tsz then ⟨1, d, false⟩
  else if (n &&& (if isStatusKey then 0xff else 0x7f)) ≠ n then ⟨1, d, false⟩
  else ⟨0, write n, false⟩

/-- The `PROPERTY_CASE_SET_H` macro body: check the value size, check the
value against the mask (0x0F for `MIDI_STATUS`, 0x07 otherwise), then store
it as the high nibble, keeping the low nibble of `field`. -/
def property_case_set_h (isStatusKey : Bool) (tsz : Nat) (field : Nat)
    (write : Nat → MIDIMessageData) (d : MIDIMessageData) (sz n : Nat) : SetResult :=
  if sz ≠ tsz then ⟨1, d, false⟩
  else if (n &&& (if isStatusKey then 0x0f else 0x07)) ≠ n then ⟨1, d, false⟩
  else ⟨0, write (midiNibbleValue n (midiLowNibble field)), false⟩

/-- The `PROPERTY_CASE_SET_L` macro body: check the value size, check the
value against the 0x0F mask, then store it as the low nibble, keeping the
high nibble of `field`. -/
def property_case_set_l (tsz : Nat) (field : Nat)
    (write : Nat → MIDIMessageData) (d : MIDIMessageData) (sz n : Nat) : SetResult :=
  if sz ≠ tsz then ⟨1, d, false⟩
  else if (n &&& 0x0f) ≠ n then ⟨1, d, false⟩
  else ⟨0, write (midiNibbleValue (midiHighNibble field) n), false⟩

/-- `_set_note_off_on`. -/
def set_note_off_on (d : MIDIMessageData) (p : MIDIProperty) (sz : Nat)
    (v : MIDIValueArg) : SetResult :=
  if sz = 0 then ⟨1, d, false⟩ else
  match p, v with
  | .status, .num n =>
      property_case_set_h true sizeofMIDIByte d.bytes0 (fun x => { d with bytes0 := x }) d sz n
  | .channel, .num n =>
      property_case_set_l sizeofMIDIByte d.bytes0 (fun x => { d with bytes0 := x }) d sz n
  | .key, .num n =>
      property_case_set false sizeofMIDIByte (fun x => { d with bytes1 := x }) d sz n
  | .velocity, .num n =>
      property_case_set false sizeofMIDIByte (fun x => { d with bytes2 := x }) d sz n
  | _, _ => ⟨1, d, false⟩

/-- `_set_polyphonic_key_pressure`. -/
def set_polyphonic_key_pressure (d : MIDIMessageData) (p : MIDIProperty) (sz : Nat)
    (v : MIDIValueArg) : SetResult :=
  if sz = 0 then ⟨1, d, false⟩ else
  match p, v with
  | .status, .num n =>
      property_case_set_h true sizeofMIDIByte d.bytes0 (fun x => { d with bytes0 := x }) d sz n
  | .channel, .num n =>
      property_case_set_l sizeofMIDIByte d.bytes0 (fun x => { d with bytes0 := x }) d sz n
  | .key, .num n =>
      property_case_set false sizeofMIDIByte (fun x => { d with bytes1 := x }) d sz n
  | .pressure, .num n =>
      property_case_set false sizeofMIDIByte (fun x => { d with bytes2 := x }) d sz n
  | _, _ => ⟨1, d, false⟩

/-- `_set_control_change`. -/
def set_control_change (d : MIDIMessageData) (p : MIDIProperty) (sz : Nat)
    (v : MIDIValueArg) : SetResult :=
  if sz = 0 then ⟨1, d, false⟩ else
  match p, v with
  | .status, .num n =>
      property_case_set_h true sizeofMIDIByte d.bytes0 (fun x => { d with bytes0 := x }) d sz n
  | .channel, .num n =>
      property_case_set_l sizeofMIDIByte d.bytes0 (fun x => { d with bytes0 := x }) d sz n
  | .control, .num n =>
      property_case_set false sizeofMIDIByte (fun x => { d with bytes1 := x }) d sz n
  | .value, .num n =>
      property_case_set false sizeofMIDIByte (fun x => { d with bytes2 := x }) d sz n
  | _, _ => ⟨1, d, false⟩

/-- `_set_program_change`. -/
def set_program_change (d : MIDIMessageData) (p : MIDIProperty) (sz : Nat)
    (v : MIDIValueArg) : SetResult :=
  if sz = 0 then ⟨1, d, false⟩ else
  match p, v with
  | .status, .num n =>
      property_case_set_h true sizeofMIDIByte d.bytes0 (fun x => { d with bytes0 := x }) d sz n
  | .channel, .num n =>
      property_case_set_l sizeofMIDIByte d.bytes0 (fun x => { d with bytes0 := x }) d sz n
  | .program, .num n =>
      property_case_set false sizeofMIDIByte (fun x => { d with bytes1 := x }) d sz n
  | _, _ => ⟨1, d, false⟩

/-- `_set_channel_pressure`. -/
def set_channel_pressure (d : MIDIMessageData) (p : MIDIProperty) (sz : Nat)
    (v : MIDIValueArg) : SetResult :=
  if sz = 0 then ⟨1, d, false⟩ else
  match p, v with
  | .status, .num n =>
      property_case_set_h true sizeofMIDIByte d.bytes0 (fun x => { d with bytes0 := x }) d sz n
  | .channel, .num n =>
      property_case_set_l sizeofMIDIByte d.bytes0 (fun x => { d with bytes0 := x }) d sz n
  | .pressure, .num n =>
      property_case_set false sizeofMIDIByte (fun x => { d with bytes1 := x }) d sz n
  | _, _ => ⟨1, d, false⟩

/-- `_set_pitch_wheel_change`.  The `MIDI_VALUE` case takes a
`MIDILongValue` and packs its low seven bits into byte 1 and its high seven
bits into byte 2 without a range check. -/
def set_pitch_wheel_change (d : MIDIMessageData) (p : MIDIProperty) (sz : Nat)
    (v : MIDIValueArg) : SetResult :=
  if sz = 0 then ⟨1, d, false⟩ else
  match p, v with
  | .status, .num n =>
      property_case_set_h true sizeofMIDIByte d.bytes0 (fun x => { d with bytes0 := x }) d sz n
  | .channel, .num n =>
      property_case_set_l sizeofMIDIByte d.bytes0 (fun x => { d with bytes0 := x }) d sz n
  | .valueLsb, .num n =>
      property_case_set false sizeofMIDIByte (fun x => { d with bytes1 := x }) d sz n
  | .valueMsb, .num n =>
      property_case_set false sizeofMIDIByte (fun x => { d with bytes2 := x }) d sz n
  | .value, .num n =>
      if sz ≠ sizeofMIDILongValue then ⟨1, d, false⟩
      else ⟨0, { d with bytes1 := midiLSB n, bytes2 := midiMSB n }, false⟩
  | _, _ => ⟨1, d, false⟩

/-- `_set_system_exclusive`.  The `MIDI_SYSEX_DATA` case stores the supplied
pointer directly; it first frees the attached buffer when one is present and
owned (`bytes[3] == 1`), and it leaves `size` and the owning flag untouched. -/
def set_system_exclusive (d : MIDIMessageData) (p : MIDIProperty) (sz : Nat)
    (v : MIDIValueArg) : SetResult :=
  if sz = 0 then ⟨1, d, false⟩ else
  match p, v with
  | .status, .num n =>
      property_case_set true sizeofMIDIByte (fun x => { d with bytes0 := x }) d sz n
  | .manufacturerId, .num n =>
      property_case_set false sizeofMIDIByte (fun x => { d with bytes1 := x }) d sz n
  | .sysexSize, .num n =>
      property_case_set false sizeofSizeT (fun x => { d with size := x }) d sz n
  | .sysexFragment, .num n =>
      property_case_set false sizeofMIDIByte (fun x => { d with bytes2 := x }) d sz n
  | .sysexData, .ptr q =>
      if sz ≠ sizeofVoidPtr then ⟨1, d, false⟩
      else ⟨0, { d with data := q }, d.data.isSome && d.bytes3 == 1⟩
  | _, _ => ⟨1, d, false⟩

/-- `_set_time_code_quarter_frame`. -/
def set_time_code_quarter_frame (d : MIDIMessageData) (p : MIDIProperty) (sz : Nat)
    (v : MIDIValueArg) : SetResult :=
  if sz = 0 then ⟨1, d, false⟩ else
  match p, v with
  | .status, .num n =>
      property_case_set true sizeofMIDIByte (fun x => { d with bytes0 := x }) d sz n
  | .timeCodeType, .num n =>
      property_case_set_h false sizeofMIDIByte d.bytes1 (fun x => { d with bytes1 := x }) d sz n
  | .value, .num n =>
      property_case_set_l sizeofMIDIByte d.bytes1 (fun x => { d with bytes1 := x }) d sz n
  | _, _ => ⟨1, d, false⟩

/-- `_set_song_position_pointer`. -/
def set_song_position_pointer (d : MIDIMessageData) (p : MIDIProperty) (sz : Nat)
    (v : MIDIValueArg) : SetResult :=
  if sz = 0 then ⟨1, d, false⟩ else
  match p, v with
  | .status, .num n =>
      property_case_set true sizeofMIDIByte (fun x => { d with bytes0 := x }) d sz n
  | .valueLsb, .num n =>
      property_case_set false sizeofMIDIByte (fun x => { d with bytes1 := x }) d sz n
  | .valueMsb, .num n =>
      property_case_set false sizeofMIDIByte (fun x => { d with bytes2 := x }) d sz n
  | .value, .num n =>
      if sz ≠ sizeofMIDILongValue then ⟨1, d, false⟩
      else ⟨0, { d with bytes1 := midiLSB n, bytes2 := midiMSB n }, false⟩
  | _, _ => ⟨1, d, false⟩

/-- `_set_song_select`. -/
def set_song_select (d : MIDIMessageData) (p : MIDIProperty) (sz : Nat)
    (v : MIDIValueArg) : SetResult :=
  if sz = 0 then ⟨1, d, false⟩ else
  match p, v with
  | .status, .num n =>
      property_case_set true sizeofMIDIByte (fun x => { d with bytes0 := x }) d sz n
  | .value, .num n =>
      property_case_set false sizeofMIDIByte (fun x => { d with bytes1 := x }) d sz n
  | _, _ => ⟨1, d, false⟩

/-- `_set_tune_request`: unconditionally fails. -/
def set_tune_request (d : MIDIMessageData) (_ : MIDIProperty) (_ : Nat)
    (_ : MIDIValueArg) : SetResult :=
  ⟨1, d, false⟩

/-- `_set_real_time`. -/
def set_real_time (d : MIDIMessageData) (p : MIDIProperty) (sz : Nat)
    (v : MIDIValueArg) : SetResult :=
  if sz = 0 then ⟨1, d, false⟩ else
  match p, v with
  | .status, .num n =>
      property_case_set true sizeofMIDIByte (fun x => { d with bytes0 := x }) d sz n
  | _, _ => ⟨1, d, false⟩

/-- `MIDIMessageFormatSet`: dispatch to the setter attached to the format
table entry. -/
def MIDIMessageFormatSet : MIDIVariant → MIDIMessageData → MIDIProperty → Nat →
    MIDIValueArg → SetResult
  | .noteOffOn => set_note_off_on
  | .polyphonicKeyPressure => set_polyphonic_key_pressure
  | .controlChange => set_control_change
  | .programChange => set_program_change
  | .channelPressure => set_channel_pressure
  | .pitchWheelChange => set_pitch_wheel_change
  | .systemExclusive => set_system_exclusive
  | .timeCodeQuarterFrame => set_time_code_quarter_frame
  | .songPositionPointer => set_song_position_pointer
  | .songSelect => set_song_select
  | .tuneRequest => set_tune_request
  | .realTime => set_real_time

/-- The property keys a variant's setter handles (every other key falls into
the `PROPERTY_DEFAULT` case and fails). -/
def meaningfulKeys : MIDIVariant → MIDIProperty → Bool
  | .noteOffOn, p => p = .status || p = .channel || p = .key || p = .velocity
  | .polyphonicKeyPressure, p => p = .status || p = .channel || p = .key || p = .pressure
  | .controlChange, p => p = .status || p = .channel || p = .control || p = .value
  | .programChange, p => p = .status || p = .channel || p = .program
  | .channelPressure, p => p = .status || p = .channel || p = .pressure
  | .pitchWheelChange, p => p = .status || p = .channel || p = .valueLsb || p = .valueMsb || p = .value
  | .systemExclusive, p => p = .status || p = .manufacturerId || p = .sysexSize || p = .sysexFragment || p = .sysexData
  | .timeCodeQuarterFrame, p => p = .status || p = .timeCodeType || p = .value
  | .songPositionPointer, p => p = .status || p = .valueLsb || p = .valueMsb || p = .value
  | .songSelect, p => p = .status || p = .value
  | .tuneRequest, _ => false
  | .realTime, p => p = .status

/-- The property keys a variant's setter guards with the seven-bit mask of
`PROPERTY_CASE_SET` (every `PROPERTY_CASE_SET` use whose key is not
`MIDI_STATUS`). -/
def dataByteKeys : MIDIVariant → MIDIProperty → Bool
  | .noteOffOn, p => p = .key || p = .velocity
  | .polyphonicKeyPressure, p => p = .key || p = .pressure
  | .controlChange, p => p = .control || p = .value
  | .programChange, p => p = .program
  | .channelPressure, p => p = .pressure
  | .pitchWheelChange, p => p = .valueLsb || p = .valueMsb
  | .systemExclusive, p => p = .manufacturerId || p = .sysexSize || p = .sysexFragment
  | .timeCodeQuarterFrame, _ => false
  | .songPositionPointer, p => p = .valueLsb || p = .valueMsb
  | .songSelect, p => p = .value
  | .tuneRequest, _ => false
  | .realTime, _ => false

/-! ### AppleMIDI session engine (`applemidi.c`) -/

def APPLEMIDI_PROTOCOL_SIGNATURE : Nat := 0xffff

def APPLEMIDI_COMMAND_INVITATION : Nat := 0x494e

def APPLEMIDI_COMMAND_INVITATION_REJECTED : Nat := 0x4e4f

def APPLEMIDI_COMMAND_INVITATION_ACCEPTED : Nat := 0x4f4b

def APPLEMIDI_COMMAND_ENDSESSION : Nat := 0x4259

def APPLEMIDI_COMMAND_SYNCHRONIZATION : Nat := 0x434b

def APPLEMIDI_COMMAND_RECEIVER_FEEDBACK : Nat := 0x5253

/-- The `session` arm of the `AppleMIDICommand` union (`IN`/`OK`/`NO`/`BY`).
The name is its byte content without the terminating NUL, so the empty list
models a name whose first byte is NUL. -/
structure SessionBody where
  version : Nat
  token : Nat
  ssrc : Nat
  name : List Nat
deriving DecidableEq, Repr

/-- The `sync` arm of the `AppleMIDICommand` union (`CK`). -/
structure SyncBody where
  ssrc : Nat
  count : Nat
  timestamp1 : Nat
  timestamp2 : Nat
  timestamp3 : Nat
deriving DecidableEq, Repr

/-- The `feedback` arm of the `AppleMIDICommand` union (`RS`). -/
structure FeedbackBody where
  ssrc : Nat
  seqnum : Nat
deriving DecidableEq, Repr

/-- `struct AppleMIDICommand`.  The address is abstract (an identifier for
the socket address bytes).  In the C struct the three data arms share one
union; they are separate fields here, which is faithful because every code
path reads only the arm matching the command type it assigned. -/
structure AppleMIDICommand where
  addr : Nat
  type : Nat
  session : SessionBody
  sync : SyncBody
  feedback : FeedbackBody
deriving DecidableEq, Repr

/-- The body of a datagram composed by `_applemidi_send_command`, at the
field level of the `msg[]` words it serializes. -/
inductive SentBody where
  | session (version token ssrc : Nat) (name : List Nat)
  | sync (s : SyncBody)
  | feedback (ssrc seqnum : Nat)
deriving DecidableEq, Repr

/-- A datagram sent by `_applemidi_send_command`: destination address, the
16-bit command code following the 0xFFFF signature, and the body fields. -/
structure SentPacket where
  dest : Nat
  type : Nat
  body : SentBody
deriving DecidableEq, Repr

/-- `_applemidi_send_command`: compose the signature plus command word and
the per-type body and transmit it to `command->addr`.  Returns `none` for an
unknown command type (the C returns 1 without sending).  For session
commands the name bytes are appended only when the first name byte is not
NUL; an empty name sends the three header words alone, which is
indistinguishable from appending zero name bytes, so the name field is
carried through unchanged. -/
def applemidi_send_command (command : AppleMIDICommand) : Option SentPacket :=
  if command.type = APPLEMIDI_COMMAND_INVITATION ∨
     command.type = APPLEMIDI_COMMAND_INVITATION_ACCEPTED ∨
     command.type = APPLEMIDI_COMMAND_INVITATION_REJECTED ∨
     command.type = APPLEMIDI_COMMAND_ENDSESSION then
    some ⟨command.addr, command.type,
      .session command.session.version command.session.token
        command.session.ssrc command.session.name⟩
  else if command.type = APPLEMIDI_COMMAND_SYNCHRONIZATION then
    some ⟨command.addr, command.type, .sync command.sync⟩
  else if command.type = APPLEMIDI_COMMAND_RECEIVER_FEEDBACK then
    some ⟨command.addr, command.type,
      .feedback command.feedback.ssrc command.feedback.seqnum⟩
  else
    none

/-- Outcome of `_applemidi_sync`: the C return value, the datagram sent (if
any), the mutated command buffer, and the timestamp difference stored into
the peer.  The source computes a `diff` in the count 2 and count 3 branches
but the call `RTPPeerSetTimestampDiff( command->peer, diff )` is commented
out, so `peerTimestampDiff` is `none` in every branch. -/
structure SyncResult where
  retval : Nat
  sent : Option SentPacket
  command : AppleMIDICommand
  peerTimestampDiff : Option Nat
deriving DecidableEq, Repr

/-- Modulus of the C `unsigned long` arithmetic used for the sync timestamp
differences (64-bit target). -/
def ULONG_MOD : Nat := 2 ^ 64

/-- Wrapping `unsigned long` subtraction. -/
def ulongSub (a b : Nat) : Nat := (a + (ULONG_MOD - b % ULONG_MOD)) % ULONG_MOD

/-- `_applemidi_sync`, as a function of the session's local `ssrc`, the
current session clock `timestamp`, and the command buffer.  A command that
is not a synchronization command, or that is an echo of the local `ssrc`,
is overwritten as a fresh count 1 packet and sent; otherwise the count 3, 2
and 1 branches answer as in the source.  The `diff` values mirror the local
variable of the source; they are computed and discarded there because the
peer update call is commented out. -/
def applemidi_sync (ssrc timestamp : Nat) (command : AppleMIDICommand) : SyncResult :=
  if command.type ≠ APPLEMIDI_COMMAND_SYNCHRONIZATION ∨ command.sync.ssrc = ssrc then
    let c := { command with
               type := APPLEMIDI_COMMAND_SYNCHRONIZATION,
               sync := { command.sync with ssrc := ssrc, count := 1, timestamp1 := timestamp } }
    let pkt := applemidi_send_command c
    ⟨if pkt.isSome then 0 else 1, pkt, c, none⟩
  else if command.sync.count = 3 then
    let _diff := ulongSub (command.sync.timestamp3 +
      ulongSub command.sync.timestamp3 command.sync.timestamp1 / 2) timestamp
    let c := { command with
               sync := { command.sync with ssrc := ssrc, count := 0 } }
    ⟨0, none, c, none⟩
  else if command.sync.count = 2 then
    let _diff := ulongSub (command.sync.timestamp2 +
      ulongSub command.sync.timestamp3 command.sync.timestamp1 / 2) timestamp
    let c := { command with
               sync := { command.sync with ssrc := ssrc, count := 3, timestamp3 := timestamp } }
    let pkt := applemidi_send_command c
    ⟨if pkt.isSome then 0 else 1, pkt, c, none⟩
  else if command.sync.count = 1 then
    let c := { command with
               sync := { command.sync with ssrc := ssrc, count := 2, timestamp2 := timestamp } }
    let pkt := applemidi_send_command c
    ⟨if pkt.isSome then 0 else 1, pkt, c, none⟩
  else
    ⟨1, none, command, none⟩

/-- `_applemidi_start_sync`: build a command on the stack, fill in only the
peer's address, and run `_applemidi_sync` on it.  The remaining fields of the
stack command are never initialized; `residual` carries whatever contents
that memory holds. -/
def applemidi_start_sync (ssrc timestamp : Nat) (peerAddr : Nat)
    (residual : AppleMIDICommand) : SyncResult :=
  applemidi_sync ssrc timestamp { residual with addr := peerAddr }

/-- Outcome of `_applemidi_respond`: the C return value, the datagram sent
back (if any), and the side effects on the RTP session and the RTP-MIDI
journal. -/
structure RespondResult where
  retval : Nat
  sent : Option SentPacket
  addedPeer : Option (Nat × Nat)
  removedPeerSsrc : Option Nat
  truncatedJournal : Option (Nat × Nat)
  peerTimestampDiff : Option Nat
deriving DecidableEq, Repr

/-- `_applemidi_respond`.  An invitation is accepted unconditionally (the
source reads `if( 1 )`): the command is turned into `OK`, its session `ssrc`
is replaced by the local one — all other session fields, the name included,
are left as received — and it is sent back over the same socket to the
stored sender address.  `OK` adds a peer, `BY` removes one, `CK` continues
the synchronization exchange, `RS` truncates the send journal. -/
def applemidi_respond (ssrc timestamp : Nat) (command : AppleMIDICommand) : RespondResult :=
  if command.type = APPLEMIDI_COMMAND_INVITATION then
    let c := { command with
               type := APPLEMIDI_COMMAND_INVITATION_ACCEPTED,
               session := { command.session with ssrc := ssrc } }
    let pkt := applemidi_send_command c
    ⟨if pkt.isSome then 0 else 1, pkt, none, none, none, none⟩
  else if command.type = APPLEMIDI_COMMAND_INVITATION_ACCEPTED then
    ⟨0, none, some (command.session.ssrc, command.addr), none, none, none⟩
  else if command.type = APPLEMIDI_COMMAND_INVITATION_REJECTED then
    ⟨0, none, none, none, none, none⟩
  else if command.type = APPLEMIDI_COMMAND_ENDSESSION then
    ⟨0, none, none, some command.session.ssrc, none, none⟩
  else if command.type = APPLEMIDI_COMMAND_SYNCHRONIZATION then
    let r := applemidi_sync ssrc timestamp command
    ⟨r.retval, r.sent, none, none, none, r.peerTimestampDiff⟩
  else if command.type = APPLEMIDI_COMMAND_RECEIVER_FEEDBACK then
    ⟨0, none, none, none, some (command.feedback.ssrc, command.feedback.seqnum), none⟩
  else
    ⟨0, none, none, none, none, none⟩

/-! ### Datagram routing (`_test_applemidi` and `MIDIDriverAppleMIDIReceive`) -/

/-- Read two consecutive bytes of a datagram as a big-endian 16-bit value
(`ntohs` of a wire `short`). -/
def read16be (dgram : List Nat) (i : Nat) : Nat :=
  (dgram.getD i 0) * 256 + dgram.getD (i + 1) 0

/-- `_test_applemidi`: peek at the head of the waiting datagram.  The
`recv( socket, &buf, 2, MSG_PEEK )` call asks for at most two bytes, so
`bytes` is `min (length) 2`; the subsequent `if( bytes != 4 ) return -1`
therefore always fires.  The signature and command-code comparison below it
is preserved from the source but is unreachable. -/
def test_applemidi (dgram : List Nat) : Int :=
  let bytes : Nat := min dgram.length 2
  if bytes ≠ 4 then -1
  else if read16be dgram 0 = APPLEMIDI_PROTOCOL_SIGNATURE ∧
          (read16be dgram 2 = APPLEMIDI_COMMAND_INVITATION ∨
           read16be dgram 2 = APPLEMIDI_COMMAND_INVITATION_ACCEPTED ∨
           read16be dgram 2 = APPLEMIDI_COMMAND_INVITATION_REJECTED ∨
           read16be dgram 2 = APPLEMIDI_COMMAND_RECEIVER_FEEDBACK ∨
           read16be dgram 2 = APPLEMIDI_COMMAND_SYNCHRONIZATION ∨
           read16be dgram 2 = APPLEMIDI_COMMAND_ENDSESSION) then 0
  else 1

/-- Where `MIDIDriverAppleMIDIReceive` routes one ready datagram. -/
inductive ReceiveRoute where
  | controlHandler
  | rtpMidi
  | dropped
deriving DecidableEq, Repr

/-- The routing decision of `MIDIDriverAppleMIDIReceive` for the datagram
waiting on the selected socket: `if( _test_applemidi( fd ) )` parses and
responds to the datagram as an AppleMIDI command (the control handler);
otherwise, if the selected socket is the RTP data socket, the datagram goes
to `RTPMIDISessionReceive`. -/
def applemidi_receive_route (isRtpSocket : Bool) (dgram : List Nat) : ReceiveRoute :=
  if test_applemidi dgram ≠ 0 then .controlHandler
  else if isRtpSocket then .rtpMidi
  else .dropped

/-! ### Validity of message records (spec side)

These predicates state what the spec's "valid property assignment" means for
a message record of a given variant; they are used to state the codec
round-trip property. -/

/-- Serialized size of the fixed-size variants (spec §4.1 table); unused for
System Exclusive. -/
def fixedWireSize : MIDIVariant → Nat
  | .noteOffOn => 3
  | .polyphonicKeyPressure => 3
  | .controlChange => 3
  | .programChange => 2
  | .channelPressure => 2
  | .pitchWheelChange => 3
  | .systemExclusive => 0
  | .timeCodeQuarterFrame => 2
  | .songPositionPointer => 3
  | .songSelect => 2
  | .tuneRequest => 1
  | .realTime => 1

/-- Modelled from the spec: a message record carrying a valid property
assignment for a variant.  For the fixed-size variants the status byte
matches the variant's detector, bytes beyond the wire size are zero, and no
payload is attached.  For System Exclusive this is a first fragment
(`bytes[2] == 0`) with an owned (`bytes[3] == 1`), non-empty payload whose
length equals the `size` field (spec §3: `data` is non-null iff `size > 0`). -/
def validMessage : MIDIVariant → MIDIMessageData → Bool
  | .systemExclusive, d =>
      d.bytes0 < 256 && d.bytes1 < 256 && d.bytes2 == 0 && d.bytes3 == 1 &&
      0 < d.size &&
      (match d.data with
       | some l => l.length == d.size
       | none => false)
  | v, d =>
      variantTest v d.bytes0 && d.bytes0 < 256 && d.bytes1 < 256 && d.bytes2 < 256 &&
      (if fixedWireSize v ≤ 1 then d.bytes1 == 0 else true) &&
      (if fixedWireSize v ≤ 2 then d.bytes2 == 0 else true) &&
      d.bytes3 == 0 && d.size == 0 && d.data == none

/-- The codec round trip of spec §8.1: serialize a message into exactly
`size(m)` bytes, then decode those bytes into a fresh message record. -/
def formatRoundTrip (v : MIDIVariant) (d : MIDIMessageData) : Option MIDIMessageData :=
  (MIDIMessageFormatGetSize v d).bind fun n =>
    (MIDIMessageFormatEncode v d n).bind fun buf =>
      MIDIMessageFormatDecode v emptyMessageData buf

/-! ## Theorems -/

/-- Helper: a value above 127 never survives the seven-bit mask. -/
theorem land127_ne_of_gt (n : Nat) (h : 127 < n) : ¬(n &&& 127 = n) := by
  intro he
  have hle : n &&& 127 ≤ 127 := Nat.and_le_right
  omega

/-- Helper: `PROPERTY_CASE_SET` with the seven-bit mask rejects any value
above 127 and leaves the record unchanged. -/
theorem property_case_set_gt127 (tsz : Nat) (w : Nat → MIDIMessageData)
    (d : MIDIMessageData) (sz n : Nat) (h : 127 < n) :
    property_case_set false tsz w d sz n = ⟨1, d, false⟩ := by
  have h2 := land127_ne_of_gt n h
  unfold property_case_set
  split
  · rfl
  · simp [h2]

/-- C7: the size of a System Exclusive message is `payload_size + 2` when
the fragment index `bytes[2]` is 0 (first fragment) and `payload_size` for a
continuation fragment. -/
theorem C7_sysex_size_rule (d : MIDIMessageData) :
    MIDIMessageFormatGetSize .systemExclusive d =
      some (if d.bytes2 = 0 then d.size + 2 else d.size) := by
  show size_system_exclusive d = _
  unfold size_system_exclusive
  split <;> simp_all

/-- C9: every full-byte status in 0x80..0xEF is rejected by
`MIDIMessageFormatForStatus`; channel-voice statuses are only accepted in
nibble form. -/
theorem C9_full_byte_channel_status_rejected (s : Nat)
    (h1 : 0x80 ≤ s) (h2 : s ≤ 0xef) :
    MIDIMessageFormatForStatus s = none := by
  have hs : s % 256 = s := Nat.mod_eq_of_lt (by omega)
  unfold MIDIMessageFormatForStatus
  rw [if_pos h1]
  simp only [hs]
  rw [if_pos (by omega)]

/-- Witness for C9 at the concrete full-byte Note-On status 0x90. -/
theorem C9_full_byte_channel_status_rejected_witness :
    0x80 ≤ 0x90 ∧ 0x90 ≤ 0xef ∧ MIDIMessageFormatForStatus 0x90 = none :=
  ⟨by decide, by decide,
   C9_full_byte_channel_status_rejected 0x90 (by decide) (by decide)⟩

/-- C1 (code bug): a datagram that is not an AppleMIDI command — here the
head of an RTP v2 frame — arriving on the data socket is routed to the
AppleMIDI control handler, not to the RTP-MIDI receive path, because
`_test_applemidi` peeks at most two bytes yet requires four, so it always
reports -1, and `MIDIDriverAppleMIDIReceive` treats any nonzero report as an
AppleMIDI command. -/
theorem C1_data_socket_routing_bug :
    applemidi_receive_route true [0x80, 0x61, 0x00, 0x01] = .controlHandler ∧
    ReceiveRoute.controlHandler ≠ ReceiveRoute.rtpMidi := by
  decide

/-- C2 (code bug): processing the count 2 synchronization packet sends the
count 3 answer but never stores a timestamp difference into the peer — the
`RTPPeerSetTimestampDiff` call is commented out in the source, so the
computed offset is discarded. -/
theorem C2_timestamp_diff_never_set :
    (applemidi_sync 1 1000
      ⟨9, APPLEMIDI_COMMAND_SYNCHRONIZATION, ⟨0, 0, 0, []⟩,
       ⟨2, 2, 100, 150, 120⟩, ⟨0, 0⟩⟩).peerTimestampDiff = none ∧
    (applemidi_sync 1 1000
      ⟨9, APPLEMIDI_COMMAND_SYNCHRONIZATION, ⟨0, 0, 0, []⟩,
       ⟨2, 2, 100, 150, 120⟩, ⟨0, 0⟩⟩).sent =
      some ⟨9, APPLEMIDI_COMMAND_SYNCHRONIZATION, .sync ⟨1, 3, 100, 150, 1000⟩⟩ := by
  decide

/-- C3 (counterexample): a synchronization command that echoes the local
`ssrc` (here 5) is not discarded — the engine sends a reply packet. -/
theorem C3_echo_not_discarded_counterexample :
    (applemidi_sync 5 777
      ⟨3, APPLEMIDI_COMMAND_SYNCHRONIZATION, ⟨0, 0, 0, []⟩,
       ⟨5, 0, 11, 22, 33⟩, ⟨0, 0⟩⟩).sent ≠ none := by
  decide

/-- C3 (amended): an inbound `CK` whose `ssrc` equals the local `ssrc` is
answered like a fresh synchronization start: the command is overwritten with
the local `ssrc`, count 1 and `timestamp1 = now`, and that packet is sent
back; no peer state (in particular no timestamp difference) is modified. -/
theorem C3_echo_restarts_sync (ssrc ts : Nat) (c : AppleMIDICommand)
    (_h1 : c.type = APPLEMIDI_COMMAND_SYNCHRONIZATION)
    (h2 : c.sync.ssrc = ssrc) :
    (applemidi_sync ssrc ts c).sent =
      some ⟨c.addr, APPLEMIDI_COMMAND_SYNCHRONIZATION,
        .sync ⟨ssrc, 1, ts, c.sync.timestamp2, c.sync.timestamp3⟩⟩ ∧
    (applemidi_sync ssrc ts c).peerTimestampDiff = none := by
  unfold applemidi_sync
  rw [if_pos (Or.inr h2)]
  simp [applemidi_send_command, APPLEMIDI_COMMAND_SYNCHRONIZATION,
        APPLEMIDI_COMMAND_INVITATION, APPLEMIDI_COMMAND_INVITATION_ACCEPTED,
        APPLEMIDI_COMMAND_INVITATION_REJECTED, APPLEMIDI_COMMAND_ENDSESSION]

/-- Witness for C3 at a concrete echoed command. -/
theorem C3_echo_restarts_sync_witness :
    (applemidi_sync 5 777
      ⟨3, APPLEMIDI_COMMAND_SYNCHRONIZATION, ⟨0, 0, 0, []⟩,
       ⟨5, 0, 11, 22, 33⟩, ⟨0, 0⟩⟩).sent =
      some ⟨3, APPLEMIDI_COMMAND_SYNCHRONIZATION, .sync ⟨5, 1, 777, 22, 33⟩⟩ ∧
    (applemidi_sync 5 777
      ⟨3, APPLEMIDI_COMMAND_SYNCHRONIZATION, ⟨0, 0, 0, []⟩,
       ⟨5, 0, 11, 22, 33⟩, ⟨0, 0⟩⟩).peerTimestampDiff = none :=
  C3_echo_restarts_sync 5 777
    ⟨3, APPLEMIDI_COMMAND_SYNCHRONIZATION, ⟨0, 0, 0, []⟩,
     ⟨5, 0, 11, 22, 33⟩, ⟨0, 0⟩⟩ rfl rfl

/-- C4 (counterexample): starting synchronization sends a first `CK` whose
count is 1, not 0 (shown with a zeroed residual command buffer, local clock
100, peer address 7, local ssrc 5). -/
theorem C4_start_sync_count_counterexample :
    (applemidi_start_sync 5 100 7
      ⟨0, 0, ⟨0, 0, 0, []⟩, ⟨0, 0, 0, 0, 0⟩, ⟨0, 0⟩⟩).sent =
      some ⟨7, APPLEMIDI_COMMAND_SYNCHRONIZATION, .sync ⟨5, 1, 100, 0, 0⟩⟩ ∧
    (1 : Nat) ≠ 0 := by
  decide

/-- C4 (amended): when synchronization is started toward a peer, the first
`CK` packet carries count 1 and `timestamp1` equal to the local clock;
`timestamp2` and `timestamp3` are not cleared to 0 but keep the residual
contents of the uninitialized command buffer.  (Stated for residual buffer
contents whose type field differs from the synchronization command code, the
condition under which the start branch of `_applemidi_sync` is taken.) -/
theorem C4_start_sync_sends_count_one (ssrc ts peerAddr : Nat)
    (residual : AppleMIDICommand)
    (h : residual.type ≠ APPLEMIDI_COMMAND_SYNCHRONIZATION) :
    (applemidi_start_sync ssrc ts peerAddr residual).sent =
      some ⟨peerAddr, APPLEMIDI_COMMAND_SYNCHRONIZATION,
        .sync ⟨ssrc, 1, ts, residual.sync.timestamp2, residual.sync.timestamp3⟩⟩ := by
  unfold applemidi_start_sync applemidi_sync
  rw [if_pos (Or.inl h)]
  simp [applemidi_send_command, APPLEMIDI_COMMAND_SYNCHRONIZATION,
        APPLEMIDI_COMMAND_INVITATION, APPLEMIDI_COMMAND_INVITATION_ACCEPTED,
        APPLEMIDI_COMMAND_INVITATION_REJECTED, APPLEMIDI_COMMAND_ENDSESSION]

/-- Witness for C4 at a zeroed residual command buffer. -/
theorem C4_start_sync_sends_count_one_witness :
    (applemidi_start_sync 6 250 8
      ⟨0, 0, ⟨0, 0, 0, []⟩, ⟨0, 0, 0, 40, 50⟩, ⟨0, 0⟩⟩).sent =
      some ⟨8, APPLEMIDI_COMMAND_SYNCHRONIZATION, .sync ⟨6, 1, 250, 40, 50⟩⟩ :=
  C4_start_sync_sends_count_one 6 250 8
    ⟨0, 0, ⟨0, 0, 0, []⟩, ⟨0, 0, 0, 40, 50⟩, ⟨0, 0⟩⟩ (by decide)

/-- C5 (counterexample): the `OK` reply to an invitation carrying the name
bytes `[77, 73]` echoes that name back instead of an empty name. -/
theorem C5_reply_name_counterexample :
    (applemidi_respond 7 0
      ⟨4, APPLEMIDI_COMMAND_INVITATION, ⟨2, 99, 42, [77, 73]⟩,
       ⟨0, 0, 0, 0, 0⟩, ⟨0, 0⟩⟩).sent =
      some ⟨4, APPLEMIDI_COMMAND_INVITATION_ACCEPTED, .session 2 99 7 [77, 73]⟩ ∧
    ([77, 73] : List Nat) ≠ [] := by
  decide

/-- C5 (amended): every received `IN` invitation is answered to the same
sender address with an `OK` whose session body carries the local `ssrc` and
echoes the received version, token and name (the name is not cleared to the
empty string). -/
theorem C5_invitation_reply (ssrc ts : Nat) (c : AppleMIDICommand)
    (h : c.type = APPLEMIDI_COMMAND_INVITATION) :
    (applemidi_respond ssrc ts c).sent =
      some ⟨c.addr, APPLEMIDI_COMMAND_INVITATION_ACCEPTED,
        .session c.session.version c.session.token ssrc c.session.name⟩ := by
  unfold applemidi_respond
  rw [if_pos h]
  simp [applemidi_send_command, APPLEMIDI_COMMAND_INVITATION,
        APPLEMIDI_COMMAND_INVITATION_ACCEPTED]

/-- Witness for C5 at a concrete invitation. -/
theorem C5_invitation_reply_witness :
    (applemidi_respond 7 0
      ⟨4, APPLEMIDI_COMMAND_INVITATION, ⟨2, 99, 42, [77, 73]⟩,
       ⟨0, 0, 0, 0, 0⟩, ⟨0, 0⟩⟩).sent =
      some ⟨4, APPLEMIDI_COMMAND_INVITATION_ACCEPTED, .session 2 99 7 [77, 73]⟩ :=
  C5_invitation_reply 7 0
    ⟨4, APPLEMIDI_COMMAND_INVITATION, ⟨2, 99, 42, [77, 73]⟩,
     ⟨0, 0, 0, 0, 0⟩, ⟨0, 0⟩⟩ rfl

/-- C6 (counterexample): a System Exclusive continuation fragment (fragment
index 1, two payload bytes) does not survive the encode/decode round trip:
the decoder reinterprets the payload as a first fragment. -/
theorem C6_continuation_fragment_counterexample :
    formatRoundTrip .systemExclusive ⟨0xf0, 0x41, 1, 1, 2, some [0xaa, 0xbb]⟩ ≠
      some ⟨0xf0, 0x41, 1, 1, 2, some [0xaa, 0xbb]⟩ := by
  decide

/-- C6 (amended): for every variant and every valid property assignment,
decoding the bytes produced by encoding the message into exactly `size(m)`
bytes yields the message back — for System Exclusive this holds for first
fragments (`bytes[2] == 0`, owned payload), while continuation fragments are
reinterpreted by the decoder as first fragments and do not round-trip. -/
theorem C6_roundtrip_first_fragments (v : MIDIVariant) (d : MIDIMessageData)
    (h : validMessage v d = true) :
    formatRoundTrip v d = some d := by
  obtain ⟨b0, b1, b2, b3, sz, da⟩ := d
  cases v <;> cases da <;>
    simp_all [validMessage, fixedWireSize, variantTest, formatRoundTrip,
      MIDIMessageFormatGetSize, MIDIMessageFormatEncode, MIDIMessageFormatDecode,
      size_one_byte, size_two_bytes, size_three_bytes, size_system_exclusive,
      encode_one_byte, encode_two_bytes, encode_three_bytes, encode_system_exclusive,
      decode_one_byte, decode_two_bytes, decode_three_bytes, decode_system_exclusive,
      emptyMessageData, Option.bind, List.getD]

/-- Witness for C6 at a concrete Note-On message. -/
theorem C6_roundtrip_first_fragments_witness :
    validMessage .noteOffOn ⟨0x93, 0x3c, 0x64, 0, 0, none⟩ = true ∧
    formatRoundTrip .noteOffOn ⟨0x93, 0x3c, 0x64, 0, 0, none⟩ =
      some ⟨0x93, 0x3c, 0x64, 0, 0, none⟩ :=
  ⟨by decide, C6_roundtrip_first_fragments _ _ (by decide)⟩

/-- C8: for every format descriptor, a set with a property key that the
variant's setter does not handle fails with return value 1, and a set of a
seven-bit data-byte property with a value above 127 fails with return value
1; in both cases the message record is left unchanged (and nothing is
freed). -/
theorem C8_set_rejects (v : MIDIVariant) (d : MIDIMessageData) (p : MIDIProperty)
    (sz : Nat) (val : MIDIValueArg)
    (h : meaningfulKeys v p = false ∨
         (dataByteKeys v p = true ∧ ∃ n, val = .num n ∧ 127 < n)) :
    MIDIMessageFormatSet v d p sz val = ⟨1, d, false⟩ := by
  rcases h with h | ⟨hd, n, rfl, hn⟩
  · cases val <;> cases v <;> cases p <;>
      simp_all [MIDIMessageFormatSet, meaningfulKeys, set_note_off_on,
        set_polyphonic_key_pressure, set_control_change, set_program_change,
        set_channel_pressure, set_pitch_wheel_change, set_system_exclusive,
        set_time_code_quarter_frame, set_song_position_pointer, set_song_select,
        set_tune_request, set_real_time]
  · cases v <;> cases p <;>
      simp_all [MIDIMessageFormatSet, dataByteKeys, set_note_off_on,
        set_polyphonic_key_pressure, set_control_change, set_program_change,
        set_channel_pressure, set_pitch_wheel_change, set_system_exclusive,
        set_time_code_quarter_frame, set_song_position_pointer, set_song_select,
        set_tune_request, set_real_time, property_case_set_gt127]

/-- Witness for C8: setting the key of a Note-On message to 200 fails and
leaves the record unchanged. -/
theorem C8_set_rejects_witness :
    MIDIMessageFormatSet .noteOffOn ⟨0x93, 0x3c, 0x64, 0, 0, none⟩ .key 1 (.num 200) =
      ⟨1, ⟨0x93, 0x3c, 0x64, 0, 0, none⟩, false⟩ :=
  C8_set_rejects _ _ _ _ _ (Or.inr ⟨by decide, 200, rfl, by decide⟩)

/-- C10: setting the `sysex_data` property (with the pointer-sized value the
descriptor demands) stores the supplied payload pointer directly, frees the
previously attached buffer exactly when one is attached and the owning flag
`bytes[3]` is 1, and leaves the `size` field and the owning flag unchanged. -/
theorem C10_sysex_data_pointer_set (d : MIDIMessageData) (sz : Nat)
    (q : Option (List Nat)) (h : sz = sizeofVoidPtr) :
    MIDIMessageFormatSet .systemExclusive d .sysexData sz (.ptr q) =
      ⟨0, { d with data := q }, d.data.isSome && d.bytes3 == 1⟩ := by
  subst h
  simp [MIDIMessageFormatSet, set_system_exclusive, sizeofVoidPtr]

/-- Witness for C10: replacing an owned two-byte payload stores the new
pointer, reports the old buffer freed, and keeps `size` and `bytes[3]`. -/
theorem C10_sysex_data_pointer_set_witness :
    MIDIMessageFormatSet .systemExclusive ⟨0xf0, 1, 0, 1, 2, some [1, 2]⟩ .sysexData 8
      (.ptr (some [9])) = ⟨0, ⟨0xf0, 1, 0, 1, 2, some [9]⟩, true⟩ :=
  C10_sysex_data_pointer_set ⟨0xf0, 1, 0, 1, 2, some [1, 2]⟩ 8 (some [9]) rfl

end Midikit
